import Mathlib

/-!
Verification development for the RetroArch network-command client
(`worlds/_retroarch-nc/socket.py`, `worlds/_retroarch-nc/__init__.py`,
`worlds/_retroarch/client.py`, `worlds/_retroarch/context.py`).

The Python code is embedded shallowly: every fallible operation returns
`Except PyErr α`, and mutation of the socket / context objects is made
explicit by threading the state through each call and returning it next to
the `Except` result (Python exceptions do not roll back mutations, so the
mutated state is returned on the error path as well).

The `Commands` attrs dataclass of `socket.py` is modelled charitably as the
string constants assigned in its `__init__`; under strict attrs semantics a
class-level attribute access such as `Commands.GET_STATUS` may itself raise,
which would only make the code fail earlier than modelled here.
-/

/-- Python exception classes raised by the embedded code.  `connectionError`
covers `ConnectionError` and its subclasses (`ConnectionResetError`,
`ConnectionRefusedError`); `timeoutError` is the builtin `TimeoutError`
raised by `async_read_response`, which is neither a `ValueError` nor a
`ConnectionError` and therefore escapes the `except` clauses of
`send_requests`. -/
inductive PyErr where
  | connectionError
  | timeoutError
  | valueError
  | typeError
  | attributeError
  | unboundLocalError
  | notConnectedError
  | requestFailedError
  | syncError
deriving DecidableEq, Repr

/-- Result test for `Except PyErr`. -/
def okE {α : Type} : Except PyErr α → Bool
  | .ok _ => true
  | .error _ => false

/-- One datagram-level event the OS delivers to a `recv` call: either a
datagram payload or a connection-level error (e.g. an ICMP port-unreachable
surfacing as `ConnectionRefusedError`/`ConnectionResetError`). -/
inductive RecvEvent where
  | data (s : String)
  | reset
deriving DecidableEq, Repr

/-- State of a `RetroArchSocket` (socket.py:34-49).  `conn` is `_socket`
(`none` after `close`), `events` is the queue of pending receive events the
environment will deliver, and `sent` records every datagram passed to
`_socket.send`, in order (the "transport spy"). -/
structure RASocket where
  conn : Option Unit
  events : List RecvEvent
  sent : List String
deriving DecidableEq, Repr

/-- socket.py:12. -/
def SEND_LIMIT : Nat := 2 ^ 11

/-- `RetroArchSocket.close` (socket.py:47-49): `self._socket.close()` then
`self._socket = None`.  When `_socket` is already `None`, the attribute
access `None.close` raises `AttributeError` — close is not idempotent. -/
def RASocket.close (s : RASocket) : (Except PyErr Unit) × RASocket :=
  match s.conn with
  | none => (.error .attributeError, s)
  | some _ => (.ok (), { s with conn := none })

/-- `RetroArchSocket.send_command` (socket.py:51-57): raises
`ConnectionError` when there is no socket, `ValueError` when the encoded
message exceeds the 2 KiB send ceiling, otherwise sends the datagram. -/
def send_command (s : RASocket) (request : String) : (Except PyErr Unit) × RASocket :=
  match s.conn with
  | none => (.error .connectionError, s)
  | some _ =>
    if request.length > SEND_LIMIT then (.error .valueError, s)
    else (.ok (), { s with sent := s.sent ++ [request] })

/-- `RetroArchSocket.async_read_response` (socket.py:65-77): raises
`ConnectionError` when there is no socket; otherwise one receive attempt:
a pending datagram is returned decoded, a pending connection-level error
raises `ConnectionError`, and an empty queue raises the builtin
`TimeoutError` (the `asyncio.TimeoutError` is caught and re-raised as
`TimeoutError('Socket timeout')`). -/
def async_read_response (s : RASocket) : (Except PyErr String) × RASocket :=
  match s.conn with
  | none => (.error .connectionError, s)
  | some _ =>
    match s.events with
    | [] => (.error .timeoutError, s)
    | .data d :: rest => (.ok d, { s with events := rest })
    | .reset :: rest => (.error .connectionError, { s with events := rest })

/-- Python `x is None` applied to the `str` returned by
`async_read_response`: a `str` is never `None`, so this is always false.
This is the condition of the drain loop in `clear_responses`. -/
def pyIsNone_str (_ : String) : Bool := false

/-- Helper fact used for termination of the drain loop: a successful read
consumes exactly one pending event. -/
def async_read_ok_shrinks {s s' : RASocket} {d : String}
    (h : async_read_response s = (.ok d, s')) :
    s'.events.length < s.events.length := by
  obtain ⟨conn, events, sent⟩ := s
  cases conn with
  | none => exact absurd h (by simp [async_read_response])
  | some u =>
    cases events with
    | nil => exact absurd h (by simp [async_read_response])
    | cons ev rest =>
      cases ev with
      | data x =>
        simp [async_read_response] at h
        rw [← h.2]
        simp
      | reset => exact absurd h (by simp [async_read_response])

/-- `RetroArchSocket.clear_responses` (socket.py:79-81):
`while await self.async_read_response(timeout=0) is not None: pass`.
The loop condition is always true (the read returns a `str`), so the loop
can only terminate by an exception propagating out of the read: it drains
every pending datagram and then raises whatever the next read raises
(`TimeoutError` on an empty queue). -/
def clear_responses (sock : RASocket) : (Except PyErr Unit) × RASocket :=
  match h : async_read_response sock with
  | (.error e, sock') => (.error e, sock')
  | (.ok d, sock') =>
    if pyIsNone_str d then (.ok (), sock')
    else clear_responses sock'
termination_by sock.events.length
decreasing_by exact async_read_ok_shrinks h

/-- The list comprehension `[await self.async_read_response() for _ in requests]`
(socket.py:89): `n` sequential receives, aborted by the first exception. -/
def readLoop (sock : RASocket) : Nat → (Except PyErr (List String)) × RASocket
  | 0 => (.ok [], sock)
  | n + 1 =>
    match async_read_response sock with
    | (.error e, sock') => (.error e, sock')
    | (.ok r, sock') =>
      match readLoop sock' n with
      | (.error e, sock'') => (.error e, sock'')
      | (.ok rs, sock'') => (.ok (r :: rs), sock'')

/-- `RetroArchSocket.multi_command_transactions` (socket.py:86-89): drain,
send the commands joined by `"\n"` as one datagram, then receive once per
command. -/
def multi_command_transactions (sock : RASocket) (requests : List String) :
    (Except PyErr (List String)) × RASocket :=
  match clear_responses sock with
  | (.error e, sock') => (.error e, sock')
  | (.ok _, sock') =>
    match send_command sock' (String.intercalate "\n" requests) with
    | (.error e, sock'') => (.error e, sock'')
    | (.ok _, sock'') => readLoop sock'' requests.length

/-- `ConnectionStatus` (__init__.py:20-23). -/
inductive ConnectionStatus where
  | NOT_CONNECTED
  | TENTATIVE
  | CONNECTED
deriving DecidableEq, Repr

/-- `RetroArchContext` (__init__.py:25-37).  `info` is `Optional[Dict]`; its
contents are never successfully written (every write is dead code behind an
earlier exception), so only its `None`-ness is modelled. -/
structure Ctx where
  socket : Option RASocket
  connection_status : ConnectionStatus
  info : Option Unit
deriving DecidableEq, Repr

/-- `RetroArchContext.close` (__init__.py:35-37). -/
def Ctx.close (ctx : Ctx) : Ctx :=
  { ctx with connection_status := .NOT_CONNECTED, info := none }

/-- `connect` (__init__.py:60-69): constructing `RetroArchSocket()` opens a
UDP socket and performs a local `connect`, which does not contact the peer
and so does not raise `TimeoutError`/`ConnectionRefusedError`; the success
path sets a fresh socket and `TENTATIVE`. -/
def connect (ctx : Ctx) : Bool × Ctx :=
  let sock : RASocket := { conn := some (), events := [], sent := [] }
  (true, { ctx with socket := some sock, connection_status := .TENTATIVE })

/-- `disconnect` (__init__.py:72-77): close the socket if one is held, drop
it, then force `NOT_CONNECTED`.  An exception from `close` propagates before
either assignment happens. -/
def disconnect (ctx : Ctx) : (Except PyErr Unit) × Ctx :=
  match ctx.socket with
  | none => (.ok (), { ctx with connection_status := .NOT_CONNECTED })
  | some sock =>
    match RASocket.close sock with
    | (.error e, sock') => (.error e, { ctx with socket := some sock' })
    | (.ok _, _) => (.ok (), { ctx with socket := none, connection_status := .NOT_CONNECTED })

/-- Python `==` between a `list` of `str` and the `bytes` literal `b""`
(__init__.py:96): values of different types compare unequal, so this is
always `False` — the peer-closed check can never fire. -/
def pyEq_listStr_bytes (_ : List String) : Bool := false

/-- `send_requests` (__init__.py:86-114).  `except ValueError` re-drains and
wraps into `RequestFailedError`, but the re-drain itself raises first (see
`clear_responses`); `except (ConnectionError, ConnectionResetError)` tears
the transport down to `NOT_CONNECTED`.  The builtin `TimeoutError` raised by
a receive timeout matches neither clause and propagates unclassified. -/
def send_requests (ctx : Ctx) (req_list : List String) :
    (Except PyErr (List String)) × Ctx :=
  match ctx.socket with
  | none => (.error .notConnectedError, ctx)
  | some sock =>
    match multi_command_transactions sock req_list with
    | (.ok responses, sock') =>
      let ctx' : Ctx := { ctx with socket := some sock' }
      if pyEq_listStr_bytes responses then
        -- `if responses == b""` (dead: the comparison is always False)
        match RASocket.close sock' with
        | (.error e, sock'') => (.error e, { ctx' with socket := some sock'' })
        | (.ok _, _) => (.error .requestFailedError, Ctx.close { ctx' with socket := none })
      else
        let ctx'' : Ctx :=
          if ctx'.connection_status = .TENTATIVE then
            { ctx' with connection_status := .CONNECTED }
          else ctx'
        (.ok responses, ctx'')
    | (.error e, sock') =>
      let ctx' : Ctx := { ctx with socket := some sock' }
      if e = .valueError then
        -- `await ctx.socket.clear_responses()` inside the handler raises in turn
        match clear_responses sock' with
        | (.error e2, sock'') => (.error e2, { ctx' with socket := some sock'' })
        | (.ok _, sock'') => (.error .requestFailedError, { ctx' with socket := some sock'' })
      else if e = .connectionError then
        match RASocket.close sock' with
        | (.error e2, sock'') => (.error e2, { ctx' with socket := some sock'' })
        | (.ok _, _) =>
          (.error .requestFailedError,
            { Ctx.close { ctx' with socket := none } with connection_status := .NOT_CONNECTED })
      else
        (.error e, ctx')

/-- `send_request` (__init__.py:79-84): the body is
`await send_requests(ctx, request)[0]`, which subscripts the coroutine
object returned by `send_requests` before awaiting it; subscripting a
coroutine raises `TypeError` before any of `send_requests` runs, so no
state is touched and no datagram is exchanged. -/
def send_request (ctx : Ctx) (_request : String) : (Except PyErr String) × Ctx :=
  (.error .typeError, ctx)

/-- Command strings assigned in `Commands.__init__` (socket.py:25-32). -/
def cmd_GET_STATUS : String := "GET_STATUS"

/-- Command string `READ_CORE_MEMORY` (socket.py:31). -/
def cmd_READ_CORE_MEMORY : String := "READ_CORE_MEMORY"

/-- Command string `WRITE_CORE_MEMORY` (socket.py:32). -/
def cmd_WRITE_CORE_MEMORY : String := "WRITE_CORE_MEMORY"

/-- `get_status` (__init__.py:123-136): calls `send_request`, which always
raises `TypeError` (coroutine subscript); the parse
`response.split(b" ", 2)`, the tag check and the `ctx.info` caching that
follow are unreachable (and each would itself raise `TypeError`:
`str.split` with a `bytes` separator, and `None[...]` assignment while
`ctx.info` is `None`). -/
def get_status (ctx : Ctx) : (Except PyErr String) × Ctx :=
  match send_request ctx cmd_GET_STATUS with
  | (.error e, ctx') => (.error e, ctx')
  | (.ok _response, ctx') =>
    -- unreachable: `response.split(b" ", 2)` raises TypeError
    (.error .typeError, ctx')

/-- Python iteration over the characters of a `str` that was passed where a
list of `str` was expected (each element is a one-character string). -/
def strChars (s : String) : List String := s.toList.map (fun c => String.mk [c])

/-- `get_game_crc` (__init__.py:173-187): when `ctx.info` is `None` it calls
`send_requests(ctx, Commands.GET_STATUS)` with the bare string (iterated as
its characters); were that ever to succeed, `response.split(b" ", 2)` on the
returned list would raise `AttributeError` (`list` has no `split`).  When
`ctx.info` is not `None`, `return ctx.info[game_crc]` reads the local
`game_crc` that was never assigned on this path: `UnboundLocalError`. -/
def get_game_crc (ctx : Ctx) : (Except PyErr String) × Ctx :=
  match ctx.info with
  | none =>
    match send_requests ctx (strChars cmd_GET_STATUS) with
    | (.error e, ctx') => (.error e, ctx')
    | (.ok _response, ctx') => (.error .attributeError, ctx')
  | some _ => (.error .unboundLocalError, ctx)

/-- Python `int(s)` on a `str`: parses an optional sign and decimal digits,
raising `ValueError` otherwise (note the responses echo hex addresses, which
`int` would reject). -/
def pyIntDec (s : String) : Except PyErr Int :=
  match s.toInt? with
  | some n => .ok n
  | none => .error .valueError

/-- Numeric value of one hex digit. -/
def hexVal (c : Char) : Option Nat :=
  if '0' ≤ c ∧ c ≤ '9' then some (c.toNat - '0'.toNat)
  else if 'a' ≤ c ∧ c ≤ 'f' then some (c.toNat - 'a'.toNat + 10)
  else if 'A' ≤ c ∧ c ≤ 'F' then some (c.toNat - 'A'.toNat + 10)
  else none

/-- Hex-pair decoding for `bytearray.fromhex`. -/
def fromHexPairs : List Char → Option (List Nat)
  | [] => some []
  | c1 :: c2 :: rest =>
    match hexVal c1, hexVal c2, fromHexPairs rest with
    | some hi, some lo, some tl => some ((hi * 16 + lo) :: tl)
    | _, _, _ => none
  | _ => none

/-- Python `bytearray.fromhex(s)`: pairs of hex digits, `ValueError` on
malformed input. -/
def pyFromHex (s : String) : Except PyErr (List Nat) :=
  match fromHexPairs s.toList with
  | some bs => .ok bs
  | none => .error .valueError

/-- One phase-1 guard request (__init__.py:233-234 and 283-284):
`Commands.READ_CORE_MEMORY + " " + hex(address) + " " + len(expected_data)`
concatenates a `str` with the `int` returned by `len`, raising `TypeError`
while the request list is being built, before any datagram is sent. -/
def buildGuardRequest (_address : Nat) (_expected : List Nat) : Except PyErr String :=
  .error .typeError

/-- The guard-request list comprehension: empty input builds `[]` without
evaluating the faulty expression; any non-empty input raises. -/
def buildGuardRequests : List (Nat × List Nat) → Except PyErr (List String)
  | [] => .ok []
  | (a, d) :: rest =>
    match buildGuardRequest a d with
    | .error e => .error e
    | .ok r =>
      match buildGuardRequests rest with
      | .error e => .error e
      | .ok rs => .ok (r :: rs)

/-- One phase-2 read request (__init__.py:243-244):
`Commands.READ_CORE_MEMORY + " " + hex(address) + " " + length` concatenates
a `str` with the `int` `length`, raising `TypeError`. -/
def buildReadRequest (_address : Nat) (_sz : Nat) : Except PyErr String :=
  .error .typeError

/-- The read-request list comprehension. -/
def buildReadRequests : List (Nat × Nat) → Except PyErr (List String)
  | [] => .ok []
  | (a, n) :: rest =>
    match buildReadRequest a n with
    | .error e => .error e
    | .ok r =>
      match buildReadRequests rest with
      | .error e => .error e
      | .ok rs => .ok (r :: rs)

/-- One phase-2 write request (__init__.py:292-293):
`Commands.WRITE_CORE_MEMORY + " " + hex(address) + " " + values` concatenates
a `str` with the iterable `values`, raising `TypeError`. -/
def buildWriteRequest (_address : Nat) (_values : List Nat) : Except PyErr String :=
  .error .typeError

/-- The write-request list comprehension. -/
def buildWriteRequests : List (Nat × List Nat) → Except PyErr (List String)
  | [] => .ok []
  | (a, v) :: rest =>
    match buildWriteRequest a v with
    | .error e => .error e
    | .ok r =>
      match buildWriteRequests rest with
      | .error e => .error e
      | .ok rs => .ok (r :: rs)

/-- `response.split(b" ", 2)` plus tuple unpacking (__init__.py:233, 243,
283, 292): calling `str.split` with a `bytes` separator raises `TypeError`
(the responses are `str`, decoded in `async_read_response`). -/
def pySplitUnpack3 (_s : String) : Except PyErr (String × String × String) :=
  .error .typeError

/-- The response-splitting list comprehension. -/
def splitAll : List String → Except PyErr (List (String × String × String))
  | [] => .ok []
  | s :: rest =>
    match pySplitUnpack3 s with
    | .error e => .error e
    | .ok t =>
      match splitAll rest with
      | .error e => .error e
      | .ok ts => .ok (t :: ts)

/-- The guard condition of __init__.py:237 and 287, with Python's
left-to-right short-circuit `and`:
`r_command == READ_CORE_MEMORY and int(r_address) == address and
bytearray.fromhex(r_data) == expected_data`. -/
def guardMatches (r : String × String × String) (address : Nat) (expected : List Nat) :
    Except PyErr Bool :=
  if r.1 ≠ cmd_READ_CORE_MEMORY then .ok false
  else
    match pyIntDec r.2.1 with
    | .error e => .error e
    | .ok n =>
      if n ≠ (address : Int) then .ok false
      else
        match pyFromHex r.2.2 with
        | .error e => .error e
        | .ok bs => .ok (bs == expected)

/-- The guard-checking double loop (__init__.py:235-240 and 285-290).  The
`else` is attached to the `if` inside the inner `for`, so for each guard
only the FIRST parsed response is inspected: a match breaks to the next
guard, a non-match returns the negative outcome immediately, and an empty
response list falls through with the guard counted as passed.  Guards other
than the first are never compared against their own echo. -/
def guardPhase : List (Nat × List Nat) → List (String × String × String) → Except PyErr Bool
  | [], _ => .ok true
  | (address, expected) :: rest, parsed =>
    match parsed with
    | [] => guardPhase rest parsed
    | r :: _ =>
      match guardMatches r address expected with
      | .error e => .error e
      | .ok true => guardPhase rest parsed
      | .ok false => .ok false

/-- The read condition of __init__.py:247, returning the decoded bytes when
it holds: `r_command == READ_CORE_MEMORY and int(r_address) == address and
len(bytearray.fromhex(r_data)) == length`. -/
def readMatches (r : String × String × String) (address : Nat) (sz : Nat) :
    Except PyErr (Option (List Nat)) :=
  if r.1 ≠ cmd_READ_CORE_MEMORY then .ok none
  else
    match pyIntDec r.2.1 with
    | .error e => .error e
    | .ok n =>
      if n ≠ (address : Int) then .ok none
      else
        match pyFromHex r.2.2 with
        | .error e => .error e
        | .ok bs => if bs.length = sz then .ok (some bs) else .ok none

/-- The result-collecting double loop (__init__.py:245-251): same botched
`for`/`if`/`else` shape as the guard loop — only the first parsed response
is inspected per requested region; a mismatch raises `SyncError`, and an
empty response list silently appends nothing for the region. -/
def readCollect : List (Nat × Nat) → List (String × String × String) →
    Except PyErr (List (List Nat))
  | [], _ => .ok []
  | (address, sz) :: rest, parsed =>
    match parsed with
    | [] => readCollect rest parsed
    | r :: _ =>
      match readMatches r address sz with
      | .error e => .error e
      | .ok none => .error .syncError
      | .ok (some bs) =>
        match readCollect rest parsed with
        | .error e => .error e
        | .ok tl => .ok (bs :: tl)

/-- The write-echo condition of __init__.py:296:
`r_command == WRITE_CORE_MEMORY and int(r_address) == address and
int(r_data) == len(values)`. -/
def writeMatches (r : String × String × String) (address : Nat) (values : List Nat) :
    Except PyErr Bool :=
  if r.1 ≠ cmd_WRITE_CORE_MEMORY then .ok false
  else
    match pyIntDec r.2.1 with
    | .error e => .error e
    | .ok n =>
      if n ≠ (address : Int) then .ok false
      else
        match pyIntDec r.2.2 with
        | .error e => .error e
        | .ok m => .ok (m == (values.length : Int))

/-- The write-echo checking double loop (__init__.py:294-299), same shape
as `readCollect` but only verifying the reported byte count. -/
def writeCheck : List (Nat × List Nat) → List (String × String × String) → Except PyErr Unit
  | [], _ => .ok ()
  | (address, values) :: rest, parsed =>
    match parsed with
    | [] => writeCheck rest parsed
    | r :: _ =>
      match writeMatches r address values with
      | .error e => .error e
      | .ok true => writeCheck rest parsed
      | .ok false => .error .syncError

/-- `guarded_read` (__init__.py:216-253): build the guard requests, send
them, split each response, run the guard loop; on a passed guard phase,
build the data-read requests, send them, split, and collect the results. -/
def guarded_read (ctx : Ctx) (read_list : List (Nat × Nat))
    (guard_list : List (Nat × List Nat)) :
    (Except PyErr (Option (List (List Nat)))) × Ctx :=
  match buildGuardRequests guard_list with
  | .error e => (.error e, ctx)
  | .ok guardReqs =>
    match send_requests ctx guardReqs with
    | (.error e, ctx') => (.error e, ctx')
    | (.ok guardResponses, ctx') =>
      match splitAll guardResponses with
      | .error e => (.error e, ctx')
      | .ok parsed =>
        match guardPhase guard_list parsed with
        | .error e => (.error e, ctx')
        | .ok false => (.ok none, ctx')
        | .ok true =>
          match buildReadRequests read_list with
          | .error e => (.error e, ctx')
          | .ok readReqs =>
            match send_requests ctx' readReqs with
            | (.error e, ctx'') => (.error e, ctx'')
            | (.ok readResponses, ctx'') =>
              match splitAll readResponses with
              | .error e => (.error e, ctx'')
              | .ok parsedR =>
                match readCollect read_list parsedR with
                | .error e => (.error e, ctx'')
                | .ok result => (.ok (some result), ctx'')

/-- `read` (__init__.py:256-264): `guarded_read(ctx, read_list, [])`. -/
def read (ctx : Ctx) (read_list : List (Nat × Nat)) :
    (Except PyErr (Option (List (List Nat)))) × Ctx :=
  guarded_read ctx read_list []

/-- `guarded_write` (__init__.py:267-301): guard phase identical to
`guarded_read`; on a passed guard phase, build the write requests, send,
split, and check the echoed byte counts, returning `True`. -/
def guarded_write (ctx : Ctx) (write_list : List (Nat × List Nat))
    (guard_list : List (Nat × List Nat)) : (Except PyErr Bool) × Ctx :=
  match buildGuardRequests guard_list with
  | .error e => (.error e, ctx)
  | .ok guardReqs =>
    match send_requests ctx guardReqs with
    | (.error e, ctx') => (.error e, ctx')
    | (.ok guardResponses, ctx') =>
      match splitAll guardResponses with
      | .error e => (.error e, ctx')
      | .ok parsed =>
        match guardPhase guard_list parsed with
        | .error e => (.error e, ctx')
        | .ok false => (.ok false, ctx')
        | .ok true =>
          match buildWriteRequests write_list with
          | .error e => (.error e, ctx')
          | .ok writeReqs =>
            match send_requests ctx' writeReqs with
            | (.error e, ctx'') => (.error e, ctx'')
            | (.ok writeResponses, ctx'') =>
              match splitAll writeResponses with
              | .error e => (.error e, ctx'')
              | .ok parsedW =>
                match writeCheck write_list parsedW with
                | .error e => (.error e, ctx'')
                | .ok _ => (.ok true, ctx'')

/-- `write` (__init__.py:304-310): `guarded_write(ctx, write_list, [])`,
discarding the boolean (the Python function returns `None`). -/
def write (ctx : Ctx) (write_list : List (Nat × List Nat)) : (Except PyErr Unit) × Ctx :=
  match guarded_write ctx write_list [] with
  | (.error e, ctx') => (.error e, ctx')
  | (.ok _, ctx') => (.ok (), ctx')

/-- The slice of `RetroArchClientContext` a validator may mutate as a side
effect of validation (e.g. `ctx.game = self.game`). -/
structure HCtx where
  game : String
  tags : List String
deriving DecidableEq, Repr

/-- A game handler: its `game` name and its asynchronous
`validate_rom` predicate, which may mutate the session context
(client.py:79-87). -/
structure Handler where
  game : String
  validate : HCtx → Bool × HCtx

/-- `AutoRetroArchClientRegister.game_handlers` (client.py:29): a dict from
sorted system tuples to dicts from game name to handler instance, modelled
as insertion-ordered association lists (Python dicts preserve insertion
order). -/
abbrev RegTable : Type := List (List String × List (String × Handler))

/-- Python dict assignment `d[k] = v`: overwrite in place if the key exists
(keeping its position), otherwise append. -/
def dictSetHandler (d : List (String × Handler)) (k : String) (v : Handler) :
    List (String × Handler) :=
  if d.any (fun p => p.1 = k) then d.map (fun p => if p.1 = k then (k, v) else p)
  else d ++ [(k, v)]

/-- Lexicographic code-point comparison on character lists, the order
Python's `sorted` uses for `str`. -/
def strLeChars : List Char → List Char → Bool
  | [], _ => true
  | _ :: _, [] => false
  | a :: as, b :: bs =>
    if a.toNat < b.toNat then true
    else if b.toNat < a.toNat then false
    else strLeChars as bs

/-- Python `<=` on `str`: lexicographic by code point. -/
def pyStrLe (a b : String) : Bool := strLeChars a.data b.data

/-- Insertion into a sorted list of strings. -/
def insertSorted (s : String) : List String → List String
  | [] => [s]
  | t :: rest => if pyStrLe s t then s :: t :: rest else t :: insertSorted s rest

/-- Python `sorted` on the system identifiers (client.py:36). -/
def sortStrings : List String → List String
  | [] => []
  | s :: rest => insertSorted s (sortStrings rest)

/-- The registration step of `AutoRetroArchClientRegister.__new__`
(client.py:35-41): sort the system tuple, create its (empty) inner dict on
first sight, then assign the handler under its game name. -/
def registerHandler (table : RegTable) (systemsRaw : List String) (game : String)
    (h : Handler) : RegTable :=
  let systems := sortStrings systemsRaw
  let table' : RegTable :=
    if table.any (fun e => e.1 = systems) then table else table ++ [(systems, [])]
  table'.map (fun e => if e.1 = systems then (e.1, dictSetHandler e.2 game h) else e)

/-- The inner loop of `get_handler` (client.py:62-64): scan the handlers of
one system-set group, returning the first whose validator accepts, with the
validator's context mutations threaded through. -/
def scanHandlers : List Handler → HCtx → Option Handler × HCtx
  | [], ctx => (none, ctx)
  | h :: rest, ctx =>
    match h.validate ctx with
    | (true, ctx') => (some h, ctx')
    | (false, ctx') => scanHandlers rest ctx'

/-- `AutoRetroArchClientRegister.get_handler` (client.py:58-66): iterate the
registry groups in insertion order, skip groups whose system tuple does not
contain `system`, and inside a matching group return the first handler whose
validator accepts; `None` when the scan exhausts the table. -/
def get_handler : RegTable → HCtx → String → Option Handler × HCtx
  | [], ctx, _ => (none, ctx)
  | (systems, handlers) :: rest, ctx, system =>
    if systems.contains system then
      match scanHandlers (handlers.map Prod.snd) ctx with
      | (some h, ctx') => (some h, ctx')
      | (none, ctx') => get_handler rest ctx' system
    else get_handler rest ctx system

/-- Specification-side lookup, following the words of spec §4.5: iterate a
flat candidate list and return the first handler whose predicate returns
true, threading the session mutations. -/
def firstValidating : List Handler → HCtx → Option Handler × HCtx
  | [], ctx => (none, ctx)
  | h :: rest, ctx =>
    match h.validate ctx with
    | (true, ctx') => (some h, ctx')
    | (false, ctx') => firstValidating rest ctx'

/-- The candidates `get_handler` ranges over, in its iteration order: the
handlers of every group whose system tuple contains `system`, groups in
first-registration order, handlers in game-insertion order within a
group. -/
def candidates (table : RegTable) (system : String) : List Handler :=
  ((table.filter (fun e => e.1.contains system)).map (fun e => e.2.map Prod.snd)).flatten

/-- `AuthStatus` (context.py:24-28). -/
inductive AuthStatus where
  | NOT_AUTHENTICATED
  | NEED_INFO
  | PENDING
  | AUTHENTICATED
deriving DecidableEq, Repr

/-- The fields of `RetroArchClientContext` that one watcher tick touches
(context.py:43-61 and 110-189), plus the loop-local `showed_*` flags.  The
bound handler is modelled by its presence only (the lookup that would bind
one is unreachable, see `game_watcher_tick_body`). -/
structure WatcherState where
  ra : Ctx
  rom_crc : Option String
  client_handler : Option Unit
  auth : Option String
  username : Option String
  auth_status : AuthStatus
  showed_connecting_message : Bool
  showed_connected_message : Bool
  showed_no_handler_message : Bool
deriving DecidableEq, Repr

/-- The ROM-change reaction (context.py:152-159): clear auth, username and
the bound handler, then `await ctx.disconnect(False)`, whose override sets
`auth_status = NOT_AUTHENTICATED` (context.py:106-108). -/
def clearBinding (st : WatcherState) : WatcherState :=
  { st with auth := none, username := none, client_handler := none,
            auth_status := .NOT_AUTHENTICATED }

/-- The `try` block of one `_game_watcher` tick (context.py:123-174).
When disconnected it runs `connect` (whose mutations happen) and then
`if not await connect(...)` awaits the returned `bool`, raising `TypeError`.
Otherwise `await get_status(...)` raises `TypeError` (see `get_status`).
The checksum block (lines 151-160) is modelled faithfully after it even
though it is unreachable; the handler lookup (lines 162-173) and the
sections after the `try` (lines 182-189) are cut at the end marker since no
path reaches them. -/
def game_watcher_tick_body (st : WatcherState) : (Except PyErr Unit) × WatcherState :=
  if st.ra.connection_status = .NOT_CONNECTED then
    let st1 := { st with showed_connected_message := false, showed_connecting_message := true }
    let ra' := (connect st1.ra).2
    (.error .typeError, { st1 with ra := ra' })
  else
    let st1 := { st with showed_connecting_message := false }
    match get_status st1.ra with
    | (.error e, ra') => (.error e, { st1 with ra := ra' })
    | (.ok _status, ra') =>
      let st2 := { st1 with ra := ra', showed_connected_message := true }
      match get_game_crc st2.ra with
      | (.error e, ra2) => (.error e, { st2 with ra := ra2 })
      | (.ok crc, ra2) =>
        let st3 := { st2 with ra := ra2 }
        let st4 :=
          if st3.rom_crc.isSome && st3.rom_crc ≠ some crc then clearBinding st3 else st3
        let st5 := { st4 with rom_crc := some crc }
        (.ok (), st5)

/-- One `_game_watcher` tick with its exception handling (context.py:175-179):
`RequestFailedError` and `NotConnectedError` are caught and the loop
continues; any other exception propagates and kills the watcher task. -/
def game_watcher_tick (st : WatcherState) : (Except PyErr Unit) × WatcherState :=
  match game_watcher_tick_body st with
  | (.error .requestFailedError, st') => (.ok (), st')
  | (.error .notConnectedError, st') => (.ok (), st')
  | (.error e, st') => (.error e, st')
  | (.ok u, st') => (.ok u, st')

/-- Concrete input: an open socket with two stale datagrams pending. -/
def c1Sock : RASocket :=
  { conn := some (), events := [.data "stale one", .data "stale two"], sent := [] }

/-- Concrete input: a connected context whose peer has already echoed the
guard read for address 16 with the byte 0x01 (differing from the expected
0x00). -/
def c2Ctx : Ctx :=
  { socket := some { conn := some (), events := [.data "READ_CORE_MEMORY 16 01"], sent := [] },
    connection_status := .CONNECTED, info := none }

/-- Concrete input: a connected context whose peer has sent a zero-length
datagram (the peer-closed signal). -/
def c3Ctx : Ctx :=
  { socket := some { conn := some (), events := [.data ""], sent := [] },
    connection_status := .CONNECTED, info := none }

/-- Concrete input: a `TENTATIVE` context with a conforming status response
already pending, the best case for a successful transaction. -/
def c4TentCtx : Ctx :=
  { socket := some { conn := some (), events := [.data "GET_STATUS PLAYING core,rom,abc123"], sent := [] },
    connection_status := .TENTATIVE, info := none }

/-- Concrete input: a `TENTATIVE` context whose next receive reports a
connection-level reset. -/
def c4ResetCtx : Ctx :=
  { socket := some { conn := some (), events := [.reset], sent := [] },
    connection_status := .TENTATIVE, info := none }

/-- Concrete input: a connected context with nothing pending, so the next
receive times out. -/
def c5Ctx : Ctx :=
  { socket := some { conn := some (), events := [], sent := [] },
    connection_status := .CONNECTED, info := none }

/-- First registration: systems ("A","B"), its validator rejects. -/
def c7h1 : Handler := { game := "g1", validate := fun ctx => (false, ctx) }

/-- Second registration: systems ("A",), its validator accepts. -/
def c7h2 : Handler := { game := "g2", validate := fun ctx => (true, { ctx with game := "g2" }) }

/-- Third registration: systems ("A","B") again, its validator accepts. -/
def c7h3 : Handler := { game := "g3", validate := fun ctx => (true, { ctx with game := "g3" }) }

/-- The registry after registering `c7h1`, `c7h2`, `c7h3` in that order:
`[ (("A","B"), {g1, g3}), (("A",), {g2}) ]` — iteration groups by system
set, so it no longer reflects global registration order. -/
def c7Table : RegTable :=
  registerHandler (registerHandler (registerHandler [] ["A", "B"] "g1" c7h1)
    ["A"] "g2" c7h2) ["A", "B"] "g3" c7h3

/-- Concrete session context for the lookup. -/
def c7Ctx0 : HCtx := { game := "", tags := [] }

/-- Concrete input: a freshly opened transport socket. -/
def c9Sock : RASocket := { conn := some (), events := [], sent := [] }

/-- Concrete input: a connected context holding a live socket. -/
def c9CtxA : Ctx :=
  { socket := some { conn := some (), events := [], sent := [] },
    connection_status := .CONNECTED, info := none }

/-- The context after `disconnect` of `c9CtxA`. -/
def c9CtxB : Ctx := { socket := none, connection_status := .NOT_CONNECTED, info := none }

/-- The drain loop never returns normally: its condition `is not None` is
always true on a `str`, so it exits only via an exception. -/
theorem clear_responses_never_ok (sock : RASocket) :
    okE (clear_responses sock).1 = false := by
  obtain ⟨conn, events, sent⟩ := sock
  induction events generalizing conn sent with
  | nil =>
    cases conn <;> simp [clear_responses, async_read_response, okE]
  | cons ev rest ih =>
    cases conn with
    | none => simp [clear_responses, async_read_response, okE]
    | some u =>
      cases ev with
      | data s =>
        have hstep : clear_responses ⟨some u, .data s :: rest, sent⟩ =
            clear_responses ⟨some u, rest, sent⟩ := by
          conv_lhs => rw [clear_responses]
          simp [async_read_response, pyIsNone_str]
        rw [hstep]
        exact ih (some u) sent
      | reset => simp [clear_responses, async_read_response, okE]

/-- No transaction ever completes: the drain raises before the send. -/
theorem mct_never_ok (sock : RASocket) (reqs : List String) :
    okE (multi_command_transactions sock reqs).1 = false := by
  have h := clear_responses_never_ok sock
  rcases hc : clear_responses sock with ⟨fst, snd⟩
  rw [hc] at h
  cases fst with
  | error e => simp [multi_command_transactions, hc, okE]
  | ok u => simp [okE] at h

/-- `send_requests` never returns responses: every path raises. -/
theorem send_requests_never_ok (ctx : Ctx) (reqs : List String) :
    okE (send_requests ctx reqs).1 = false := by
  rcases hsock : ctx.socket with _ | sock
  · simp [send_requests, hsock, okE]
  · have h := mct_never_ok sock reqs
    rcases hm : multi_command_transactions sock reqs with ⟨fst, snd⟩
    rw [hm] at h
    cases fst with
    | ok rs => simp [okE] at h
    | error e =>
      simp only [send_requests, hsock, hm]
      by_cases hv : e = .valueError
      · subst hv
        simp only [if_pos rfl]
        rcases hcl : clear_responses snd with ⟨f2, s2⟩
        cases f2 <;> simp [hcl, okE]
      · rw [if_neg hv]
        by_cases hce : e = .connectionError
        · subst hce
          simp only [if_pos rfl]
          rcases hcl : RASocket.close snd with ⟨f2, s2⟩
          cases f2 <;> simp [hcl, okE]
        · rw [if_neg hce]
          simp [okE]

/-- `get_status` always raises `TypeError`, leaving the context untouched:
`send_request` subscripts an un-awaited coroutine. -/
theorem get_status_spec (ctx : Ctx) : get_status ctx = (.error .typeError, ctx) := rfl

/-- C1: the claim says `multi_command_transactions` drains stale input,
sends the batch as one newline-joined datagram, and returns exactly N
responses in order.  In fact no call ever returns responses: the drain
loop's condition `is not None` never becomes false, so draining ends in an
uncaught `TimeoutError` before anything is sent.  At the concrete input the
two stale datagrams are consumed, the error is the raw `TimeoutError`, and
the `sent` spy stays empty. -/
theorem c1_multi_command_transactions_times_out_without_sending :
    (∀ (sock : RASocket) (requests : List String),
      okE (multi_command_transactions sock requests).1 = false) ∧
    multi_command_transactions c1Sock ["READ_CORE_MEMORY 0x10 1", "READ_CORE_MEMORY 0x20 1"] =
      (.error .timeoutError, { conn := some (), events := [], sent := [] }) := by
  refine ⟨mct_never_ok, ?_⟩
  simp [multi_command_transactions, clear_responses, async_read_response, pyIsNone_str, c1Sock]

/-- C2: the claim says a guard whose returned bytes differ makes
`guarded_read` return `None` without raising, sending no phase-2 read.  In
fact, for every non-empty guard list the guard-request construction
concatenates a `str` with an `int` and raises `TypeError`, so `guarded_read`
never returns `None`: at the concrete input (guard byte 0x01 echoed against
expected 0x00) it raises and leaves the context — including the empty
`sent` spy — untouched. -/
theorem c2_guarded_read_raises_instead_of_returning_none :
    guarded_read c2Ctx [(16, 2)] [(16, [0])] = (.error .typeError, c2Ctx) ∧
    (∀ (ctx : Ctx) (rl : List (Nat × Nat)) (a : Nat) (d : List Nat)
      (gl : List (Nat × List Nat)),
      guarded_read ctx rl ((a, d) :: gl) = (.error .typeError, ctx)) := by
  exact ⟨rfl, fun _ _ _ _ _ => rfl⟩

/-- C3: the claim says a zero-length response triggers immediate teardown,
`NOT_CONNECTED`, and a raised failure.  In fact the peer-closed check
`responses == b""` compares a list of strings with a bytes literal and is
always `False`, and no transaction even completes: with a zero-length
datagram pending, `send_requests` consumes it during the drain and raises
the raw `TimeoutError`, leaving the socket attached and the status
`CONNECTED`. -/
theorem c3_zero_length_response_causes_no_teardown :
    send_requests c3Ctx ["GET_STATUS"] =
      (.error .timeoutError,
        { socket := some { conn := some (), events := [], sent := [] },
          connection_status := .CONNECTED, info := none }) ∧
    (∀ rs : List String, pyEq_listStr_bytes rs = false) := by
  refine ⟨?_, fun _ => rfl⟩
  simp [send_requests, multi_command_transactions, clear_responses, async_read_response,
    pyIsNone_str, c3Ctx, okE]

/-- C5: the claim says a receive timeout aborts the transaction with the
retryable `RequestFailedError` and leaves state untouched.  The state is
indeed untouched, but the error that surfaces is the builtin `TimeoutError`
(matched by neither `except ValueError` nor `except ConnectionError`), an
unclassified exception rather than `RequestFailedError`. -/
theorem c5_timeout_surfaces_unclassified_and_state_unchanged :
    send_requests c5Ctx ["GET_STATUS"] = (.error .timeoutError, c5Ctx) ∧
    PyErr.timeoutError ≠ PyErr.requestFailedError := by
  refine ⟨?_, by decide⟩
  simp [send_requests, multi_command_transactions, clear_responses, async_read_response,
    pyIsNone_str, c5Ctx, okE]

/-- C4: the claim says a successful transaction promotes `TENTATIVE` to
`CONNECTED`, and a connection-level error forces `NOT_CONNECTED` and drops
the socket.  The promotion is unreachable: even with a conforming status
response already pending, the transaction raises the raw `TimeoutError` and
the status stays `TENTATIVE`.  The reset half does hold: a connection-level
error during the exchange tears down to `NOT_CONNECTED` with the socket
dropped and `RequestFailedError` raised. -/
theorem c4_tentative_never_promoted_but_reset_tears_down :
    ((send_requests c4TentCtx ["GET_STATUS"]).2.connection_status = .TENTATIVE ∧
     (send_requests c4TentCtx ["GET_STATUS"]).1 = .error .timeoutError) ∧
    send_requests c4ResetCtx ["GET_STATUS"] =
      (.error .requestFailedError,
        { socket := none, connection_status := .NOT_CONNECTED, info := none }) := by
  constructor
  · constructor <;>
      simp [send_requests, multi_command_transactions, clear_responses, async_read_response,
        pyIsNone_str, c4TentCtx, okE]
  · simp [send_requests, multi_command_transactions, clear_responses, async_read_response,
      pyIsNone_str, c4ResetCtx, RASocket.close, Ctx.close, okE]

/-- C6: the claim says `get_status` parses the response, caches the triple,
returns the state, and raises `SyncError` exactly on a tag mismatch.  In
fact every call raises `TypeError` before any datagram is exchanged
(`send_request` subscripts the un-awaited coroutine returned by
`send_requests`), the context is left untouched, and no `SyncError` is ever
produced. -/
theorem c6_get_status_always_type_error (ctx : Ctx) :
    get_status ctx = (.error .typeError, ctx) ∧
    PyErr.typeError ≠ PyErr.syncError := ⟨get_status_spec ctx, by decide⟩

/-- C6 witness: the theorem applied at a concrete connected context. -/
theorem c6_get_status_always_type_error_witness :
    get_status c5Ctx = (.error .typeError, c5Ctx) ∧
    PyErr.typeError ≠ PyErr.syncError :=
  c6_get_status_always_type_error c5Ctx

/-- C8: the claim says a tick that fetches a changed checksum clears the
bound handler and the authentication state and stores the new checksum.  No
tick ever fetches a checksum: every tick dies with an uncaught `TypeError`
(awaiting the plain `bool` returned by `connect` when disconnected, or the
coroutine-subscript `TypeError` inside `get_status` otherwise), so the
handler binding and the stored checksum are never touched. -/
theorem c8_watcher_tick_dies_before_checksum (st : WatcherState) :
    (game_watcher_tick st).1 = .error .typeError ∧
    (game_watcher_tick st).2.client_handler = st.client_handler ∧
    (game_watcher_tick st).2.rom_crc = st.rom_crc := by
  by_cases hnc : st.ra.connection_status = .NOT_CONNECTED <;>
    simp [game_watcher_tick, game_watcher_tick_body, hnc, get_status, send_request, connect]

/-- C8 witness: the theorem applied at a concrete connected watcher state
with a bound handler and a stored checksum. -/
theorem c8_watcher_tick_dies_before_checksum_witness :
    (game_watcher_tick
        { ra := c5Ctx, rom_crc := some "abc123", client_handler := some (),
          auth := some "slot", username := some "slot", auth_status := .AUTHENTICATED,
          showed_connecting_message := false, showed_connected_message := true,
          showed_no_handler_message := false }).1 = .error .typeError ∧
    (game_watcher_tick
        { ra := c5Ctx, rom_crc := some "abc123", client_handler := some (),
          auth := some "slot", username := some "slot", auth_status := .AUTHENTICATED,
          showed_connecting_message := false, showed_connected_message := true,
          showed_no_handler_message := false }).2.client_handler = some () ∧
    (game_watcher_tick
        { ra := c5Ctx, rom_crc := some "abc123", client_handler := some (),
          auth := some "slot", username := some "slot", auth_status := .AUTHENTICATED,
          showed_connecting_message := false, showed_connected_message := true,
          showed_no_handler_message := false }).2.rom_crc = some "abc123" :=
  c8_watcher_tick_dies_before_checksum _

/-- C9 counterexample: `close()` is not idempotent.  The first close of an
open transport succeeds; the second raises `AttributeError`, because the
socket reference was set to `None` and `None.close` does not exist. -/
theorem c9_close_not_idempotent :
    (RASocket.close c9Sock).1 = .ok () ∧
    (RASocket.close (RASocket.close c9Sock).2).1 = .error .attributeError :=
  ⟨rfl, rfl⟩

/-- C9 amended: idempotence holds one level up.  After any successful
`disconnect`, calling `disconnect` again succeeds and leaves the context
unchanged (no socket, `NOT_CONNECTED`): the redundancy guard is the
`if ctx.socket is not None` check, not the transport `close`. -/
theorem c9_disconnect_redundant_safe (ctx ctx' : Ctx)
    (h : disconnect ctx = (.ok (), ctx')) : disconnect ctx' = (.ok (), ctx') := by
  obtain ⟨sockOpt, cs, inf⟩ := ctx
  cases sockOpt with
  | none =>
    simp [disconnect] at h
    rw [← h]
    simp [disconnect]
  | some sock =>
    rcases hconn : sock.conn with _ | u
    · simp [disconnect, RASocket.close, hconn] at h
    · simp [disconnect, RASocket.close, hconn] at h
      rw [← h]
      simp [disconnect]

/-- C9 witness: the amended theorem applied after disconnecting a live
connected context. -/
theorem c9_disconnect_redundant_safe_witness :
    disconnect c9CtxA = (.ok (), c9CtxB) ∧ disconnect c9CtxB = (.ok (), c9CtxB) :=
  ⟨rfl, c9_disconnect_redundant_safe c9CtxA c9CtxB rfl⟩

/-- C10: with an empty guard list the guard phase passes vacuously — the
guard loop over no guards yields the positive outcome — and none of
`guarded_read`, `read`, `guarded_write` with empty guards can produce the
negative guard outcome (`None` / `False`); in this code they cannot produce
any successful value at all, since every transaction raises first. -/
theorem c10_empty_guard_list_never_negative :
    (∀ parsed, guardPhase [] parsed = .ok true) ∧
    (∀ (ctx : Ctx) (rl : List (Nat × Nat)), (guarded_read ctx rl []).1 ≠ .ok none) ∧
    (∀ (ctx : Ctx) (rl : List (Nat × Nat)), (read ctx rl).1 ≠ .ok none) ∧
    (∀ (ctx : Ctx) (wl : List (Nat × List Nat)), (guarded_write ctx wl []).1 ≠ .ok false) := by
  have hgr : ∀ (ctx : Ctx) (rl : List (Nat × Nat)), (guarded_read ctx rl []).1 ≠ .ok none := by
    intro ctx rl h
    have hs := send_requests_never_ok ctx []
    rcases hsr : send_requests ctx [] with ⟨fst, snd⟩
    rw [hsr] at hs
    simp only [guarded_read, buildGuardRequests, hsr] at h
    cases fst with
    | error e => simp at h
    | ok rs => simp [okE] at hs
  refine ⟨fun _ => rfl, hgr, fun ctx rl => hgr ctx rl, ?_⟩
  intro ctx wl h
  have hs := send_requests_never_ok ctx []
  rcases hsr : send_requests ctx [] with ⟨fst, snd⟩
  rw [hsr] at hs
  simp only [guarded_write, buildGuardRequests, hsr] at h
  cases fst with
  | error e => simp at h
  | ok rs => simp [okE] at hs

/-- The inner scan of one group is exactly the first-validating scan of the
group's handler list. -/
theorem scanHandlers_eq_firstValidating (hs : List Handler) (ctx : HCtx) :
    scanHandlers hs ctx = firstValidating hs ctx := by
  induction hs generalizing ctx with
  | nil => rfl
  | cons h rest ih =>
    simp only [scanHandlers, firstValidating]
    rcases h.validate ctx with ⟨b, ctx'⟩
    cases b <;> simp [ih]

/-- The first-validating scan of a concatenation: scan the prefix, then the
suffix from the threaded context. -/
theorem firstValidating_append (xs ys : List Handler) (ctx : HCtx) :
    firstValidating (xs ++ ys) ctx =
      match firstValidating xs ctx with
      | (some h, c) => (some h, c)
      | (none, c) => firstValidating ys c := by
  induction xs generalizing ctx with
  | nil => simp [firstValidating]
  | cons h rest ih =>
    simp only [List.cons_append, firstValidating]
    rcases h.validate ctx with ⟨b, ctx'⟩
    cases b <;> simp [ih]

/-- The candidate list of a matching head group is its handlers followed by
the candidates of the remaining groups. -/
theorem candidates_cons_pos (systems : List String) (handlers : List (String × Handler))
    (rest : RegTable) (system : String) (hc : systems.contains system = true) :
    candidates ((systems, handlers) :: rest) system =
      handlers.map Prod.snd ++ candidates rest system := by
  have hm : system ∈ systems := by simpa using hc
  simp [candidates, List.filter_cons, hm]

/-- The candidate list skips a non-matching head group. -/
theorem candidates_cons_neg (systems : List String) (handlers : List (String × Handler))
    (rest : RegTable) (system : String) (hc : systems.contains system = false) :
    candidates ((systems, handlers) :: rest) system = candidates rest system := by
  have hm : ¬ system ∈ systems := by simpa using hc
  simp [candidates, List.filter_cons, hm]

/-- C7 amended: `get_handler` returns "none" when no registered system
tuple contains the identifier or no validator accepts, and otherwise
returns the first accepting handler in TABLE ITERATION order — groups in
order of first registration of their (sorted) system tuple, handlers inside
a group in first-insertion order of their game name — which is not global
registration order when several groups contain the identifier.  Formally,
the lookup equals the first-validating scan of the flattened candidate
list. -/
theorem c7_lookup_follows_table_order (table : RegTable) (ctx : HCtx) (system : String) :
    get_handler table ctx system = firstValidating (candidates table system) ctx := by
  induction table generalizing ctx with
  | nil => simp [get_handler, candidates, firstValidating]
  | cons e rest ih =>
    rcases e with ⟨systems, handlers⟩
    by_cases hc : systems.contains system = true
    · rw [candidates_cons_pos systems handlers rest system hc, firstValidating_append]
      simp only [get_handler, hc, if_pos, scanHandlers_eq_firstValidating]
      rcases firstValidating (handlers.map Prod.snd) ctx with ⟨o, c⟩
      cases o <;> simp [ih]
    · have hm : ¬ system ∈ systems := by simpa using hc
      rw [candidates_cons_neg systems handlers rest system (by simpa using hm)]
      simp [get_handler, hm, ih]

/-- C7 counterexample: with registrations `c7h1` (systems A,B — rejects),
`c7h2` (system A — accepts), `c7h3` (systems A,B — accepts) in that order,
the first accepting handler in registration order is `c7h2` ("g2"), but
`get_handler` iterates by system-set group and returns `c7h3` ("g3"): the
claim's "first in registration order" is false. -/
theorem c7_registration_order_counterexample :
    (get_handler c7Table c7Ctx0 "A").1.map Handler.game = some "g3" ∧
    (firstValidating [c7h1, c7h2, c7h3] c7Ctx0).1.map Handler.game = some "g2" ∧
    (some "g3" : Option String) ≠ some "g2" := by
  refine ⟨by decide, by decide, by decide⟩
